import Mathlib

/-!
Verification of the `envhist` session daemon (Rust sources under
`daemon/src/server.rs`, `core/src/storage.rs`, `core/src/session.rs`,
`core/src/config.rs`) via a shallow embedding.

Modelling conventions, stated once:
* Machine integers (`u32` pids, `usize` sizes) are `Nat`; no arithmetic in the
  verified code can overflow a `u32`/`usize` in a way any claim depends on.
* `Uuid::new_v4()` is modelled by a fresh-counter draw: uuids are `Nat` taken
  from a monotonically incremented `nextUuid` field, which captures exactly the
  freshness (pairwise distinctness) the code relies on.
* `chrono::Utc::now()` is modelled by a monotone clock counter: each call
  returns the current `clock` and increments it.  The real wall clock is
  monotone non-decreasing on the granularity the code observes; a strictly
  increasing counter is one such clock.
* `serde_json` (de)serialization of a timeline line is not re-implemented;
  instead a stored line is a `Line`: either the serialization of an entry
  (which re-parses to that entry, the serde round-trip property), a blank
  line, or a corrupt line that fails to parse.  This is the exact case split
  `Storage::read_timeline` performs on each physical line.
* The filesystem is a value: per-session directories (timeline file, metadata
  file, snapshots directory) plus the global snapshots directory.  Directory
  iteration order (`fs::read_dir`) is the list order.  I/O primitives that
  cannot fail in the model (open/append/create_dir_all) are total, matching
  the claims, all of which are about the non-I/O-failure behaviour.
* The `regex` crate is not re-implemented: `Config::should_track` is
  parameterized by the compiler `Regex::new`, modelled as
  `compile : String → Option (String → Bool)` (`none` = pattern fails to
  compile, `some m` = the compiled matcher).
-/

namespace Envhist

/-- `core/src/storage.rs` `Action`: the two kinds of timeline actions. -/
inductive Action where
  | set
  | unset
deriving DecidableEq, Repr

/-- `core/src/storage.rs` `TimelineEntry`. `timestamp: DateTime<Utc>` is a
`Nat` clock value. -/
structure TimelineEntry where
  timestamp : Nat
  action : Action
  key : String
  value : Option String
  prev : Option String
deriving DecidableEq, Repr

/-- One physical line of a `timeline.jsonl` file, as `read_timeline` sees it:
the serde serialization of an entry, a blank line, or a line that fails to
parse as a `TimelineEntry`. -/
inductive Line where
  | entry (e : TimelineEntry)
  | blank
  | corrupt (s : String)
deriving DecidableEq, Repr

/-- `core/src/session.rs` `Session`. `id: Uuid` is a `Nat` (fresh-counter
model of `Uuid::new_v4`), timestamps are `Nat` clock values. -/
structure Session where
  id : Nat
  pid : Nat
  shell : String
  started_at : Nat
  last_updated : Nat
deriving DecidableEq, Repr

/-- `core/src/lib.rs` `Env = HashMap<String, String>`, modelled as an
association list (first binding wins on lookup). -/
abbrev Env : Type := List (String × String)

/-- Association-list lookup (the `HashMap` get / `<name>.json` file lookup
used throughout): the binding of the key, if any. -/
def alookup {α β : Type} [DecidableEq α] (k : α) : List (α × β) → Option β
  | [] => none
  | (j, v) :: rest => if j = k then some v else alookup k rest

/-- `core/src/session.rs` `SessionMetadata`. -/
structure SessionMetadata where
  session : Session
  current_env : Env
deriving DecidableEq, Repr

/-- `core/src/storage.rs` `Snapshot`.  `created_at` is a clock value; the
snapshot name is kept outside (it is the file name `<name>.json`). -/
structure Snapshot where
  created_at : Nat
  description : Option String
  environment : Env
  tags : List String
  session_id : Option Nat
deriving DecidableEq, Repr

/-- The on-disk contents of one `sessions/<uuid>/` directory:
`timeline.jsonl` (absent or a list of physical lines), `metadata.json`
(absent-or-unparsable = `none`, else the parsed metadata), and the
`snapshots/` directory as a name-keyed association list. -/
structure SessionDir where
  timeline : Option (List Line)
  metadata : Option SessionMetadata
  snapshots : List (String × Snapshot)
deriving DecidableEq

/-- The empty session directory (what `create_dir_all` materializes). -/
def SessionDir.empty : SessionDir := ⟨none, none, []⟩

/-- The storage filesystem rooted at the base directory: `sessions/` as an
ordered association list (order = `fs::read_dir` iteration order, new
directories appended at the end) and `global/snapshots/`. -/
structure FS where
  sessions : List (Nat × SessionDir)
  globalSnapshots : List (String × Snapshot)
deriving DecidableEq

/-- `sessions/<uuid>/` lookup: `none` when the directory does not exist. -/
def FS.getDir (fs : FS) (id : Nat) : Option SessionDir :=
  alookup id fs.sessions

/-- Update the binding of session `id` in the `sessions/` listing, creating
it (as `create_dir_all` does) at the end of the read-dir order if absent. -/
def updAssoc (id : Nat) (f : SessionDir → SessionDir) :
    List (Nat × SessionDir) → List (Nat × SessionDir)
  | [] => [(id, f SessionDir.empty)]
  | (j, d) :: rest =>
      if j = id then (j, f d) :: rest else (j, d) :: updAssoc id f rest

/-- Update (creating if absent, as `create_dir_all` does) the directory of
session `id`. -/
def FS.updDir (fs : FS) (id : Nat) (f : SessionDir → SessionDir) : FS :=
  { fs with sessions := updAssoc id f fs.sessions }

/-- `Storage::append_timeline`: creates the session directory if needed,
opens the timeline file in create-append mode and writes one serialized
entry line at the end. -/
def append_timeline (fs : FS) (sess : Session) (e : TimelineEntry) : FS :=
  fs.updDir sess.id fun d =>
    { d with timeline := some ((d.timeline.getD []) ++ [Line.entry e]) }

/-- The line-by-line loop of `Storage::read_timeline`: blank lines are
skipped, a line that fails to parse aborts the whole read with the parse
error (the `?` on `serde_json::from_str`), parsed entries are collected in
file order. -/
def parseLines : List Line → Except String (List TimelineEntry)
  | [] => .ok []
  | Line.blank :: rest => parseLines rest
  | Line.corrupt s :: _ => .error ("Failed to parse timeline entry: " ++ s)
  | Line.entry e :: rest =>
      match parseLines rest with
      | .ok es => .ok (e :: es)
      | .error msg => .error msg

/-- `Storage::read_timeline`: a missing timeline file yields `Ok(vec![])`;
otherwise each line is parsed via the loop above. -/
def read_timeline (fs : FS) (sess : Session) : Except String (List TimelineEntry) :=
  match fs.getDir sess.id |>.bind (·.timeline) with
  | none => .ok []
  | some lines => parseLines lines

/-- `Session::load_metadata` at `session.metadata_path()`: `none` models the
`Err` cases (file missing, unreadable or unparsable). -/
def load_metadata (fs : FS) (sess : Session) : Option SessionMetadata :=
  fs.getDir sess.id |>.bind (·.metadata)

/-- `Session::save_metadata`: creates the session directory and writes
`{ session, current_env }` to `metadata.json`. -/
def save_metadata (fs : FS) (sess : Session) (env : Env) : FS :=
  fs.updDir sess.id fun d =>
    { d with metadata := some ⟨sess, env⟩ }

/-- The directory-entry loop of `Storage::find_snapshot_in_sessions`. -/
def findSnapLoop (name : String) : List (Nat × SessionDir) → Except String Snapshot
  | [] => .error ("Snapshot " ++ name ++ " not found")
  | (_, d) :: rest =>
      match alookup name d.snapshots with
      | some snap => .ok snap
      | none => findSnapLoop name rest

/-- `Storage::find_snapshot_in_sessions`: iterate the `sessions/` directory
in read-dir order and return the first session directory's snapshot named
`name`; if none has it, fail with not-found. -/
def find_snapshot_in_sessions (fs : FS) (name : String) : Except String Snapshot :=
  findSnapLoop name fs.sessions

/-- `Storage::load_snapshot`: check the requested scope's path first; a
session-scoped miss falls back to the global directory and then fails; a
global-scoped miss scans all session directories. -/
def load_snapshot (fs : FS) (name : String) (session : Option Session) :
    Except String Snapshot :=
  match session with
  | some sess =>
      match fs.getDir sess.id |>.bind (fun d => alookup name d.snapshots) with
      | some snap => .ok snap
      | none =>
          match alookup name fs.globalSnapshots with
          | some snap => .ok snap
          | none => .error ("Snapshot " ++ name ++ " not found")
  | none =>
      match alookup name fs.globalSnapshots with
      | some snap => .ok snap
      | none => find_snapshot_in_sessions fs name

/-- Remove the binding of `name` from a snapshots directory
(`fs::remove_file` on `<name>.json`). -/
def removeSnap (name : String) : List (String × Snapshot) → List (String × Snapshot)
  | [] => []
  | (n, s) :: rest => if n = name then rest else (n, s) :: removeSnap name rest

/-- The scan loop of `Storage::delete_snapshot`: delete `name` from the
first session directory that has it, else not-found. -/
def deleteScan (fs : FS) (name : String) : List (Nat × SessionDir) → Except String FS
  | [] => .error ("Snapshot " ++ name ++ " not found")
  | (j, d) :: rest =>
      match alookup name d.snapshots with
      | some _ =>
          .ok (fs.updDir j fun dir => { dir with snapshots := removeSnap name dir.snapshots })
      | none => deleteScan fs name rest

/-- The global-then-scan tail of `Storage::delete_snapshot`. -/
def deleteGlobalThenScan (fs : FS) (name : String) : Except String FS :=
  match alookup name fs.globalSnapshots with
  | some _ => .ok { fs with globalSnapshots := removeSnap name fs.globalSnapshots }
  | none => deleteScan fs name fs.sessions

/-- `Storage::delete_snapshot`: try the session scope (when given), then the
global directory, then scan every session directory; only when every
location misses does it fail with not-found.  Returns the filesystem after
the removal. -/
def delete_snapshot (fs : FS) (name : String) (session : Option Session) :
    Except String FS :=
  match session with
  | some sess =>
      match fs.getDir sess.id |>.bind (fun d => alookup name d.snapshots) with
      | some _ =>
          .ok (fs.updDir sess.id fun dir =>
            { dir with snapshots := removeSnap name dir.snapshots })
      | none => deleteGlobalThenScan fs name
  | none => deleteGlobalThenScan fs name

/-- `core/src/config.rs` `FiltersConfig`: the three filter lists consulted by
`Config::should_track`. -/
structure FiltersConfig where
  ignore_patterns : List String
  force_track : List String
  ignore_system : List String

/-- The regex engine (`Regex::new`): `none` when the pattern fails to
compile, otherwise the compiled matcher. -/
abbrev RegexEngine := String → Option (String → Bool)

/-- `Regex::new(pattern).map(|re| re.is_match(key)).unwrap_or(false)`: an
uncompilable pattern matches nothing. -/
def regexIsMatch (compile : RegexEngine) (pattern key : String) : Bool :=
  match compile pattern with
  | some m => m key
  | none => false

/-- `Config::should_track`: force_track wins, then exact membership in
ignore_system, then ignore_patterns, else tracked. -/
def should_track (compile : RegexEngine) (cfg : FiltersConfig) (key : String) : Bool :=
  if cfg.force_track.any (fun pattern => regexIsMatch compile pattern key) then
    true
  else if cfg.ignore_system.contains key then
    false
  else if cfg.ignore_patterns.any (fun pattern => regexIsMatch compile pattern key) then
    false
  else
    true

/-- `daemon/src/server.rs` `EnvEvent` (the four wire event shapes). -/
inductive EnvEvent where
  | set (pid : Nat) (key value : String)
  | unset (pid : Nat) (key : String)
  | capture (pid : Nat) (env : Env)
  | getSession (pid : Nat)
deriving Repr

/-- `daemon/src/server.rs` `EnvResponse`. -/
inductive EnvResponse where
  | ok
  | session (s : Session)
  | error (message : String)
deriving DecidableEq, Repr

/-- The daemon's mutable world: the in-memory session registry
(`HashMap<u32, Session>` as an association list, insert replaces), the
storage filesystem, the clock and the uuid freshness counter. -/
structure DaemonState where
  sessions : List (Nat × Session)
  fs : FS
  clock : Nat
  nextUuid : Nat
deriving DecidableEq

/-- `Utc::now()`: read the clock and advance it. -/
def DaemonState.now (st : DaemonState) : Nat × DaemonState :=
  (st.clock, { st with clock := st.clock + 1 })

/-- Daemon start: empty registry, empty storage. -/
def DaemonState.init : DaemonState := ⟨[], ⟨[], []⟩, 0, 0⟩

/-- `Session::new`: fresh uuid, both timestamps set to the same `now`. -/
def Session.new (uuid pid : Nat) (shell : String) (t : Nat) : Session :=
  ⟨uuid, pid, shell, t, t⟩

/-- `Session::update_timestamp`: `last_updated = Utc::now()`, the draw `t`
supplied by the caller's clock. -/
def Session.update_timestamp (s : Session) (t : Nat) : Session :=
  { s with last_updated := t }

/-- `HashMap::insert`: replace the binding of `pid` or add it. -/
def insertPid (pid : Nat) (s : Session) : List (Nat × Session) → List (Nat × Session)
  | [] => [(pid, s)]
  | (p, t) :: rest =>
      if p = pid then (p, s) :: rest else (p, t) :: insertPid pid s rest

/-- `sessions_guard.get_mut(&pid)` followed by `update_timestamp`: refresh
the entry's timestamp when present, do nothing when absent. -/
def touchPid (pid t : Nat) : List (Nat × Session) → List (Nat × Session)
  | [] => []
  | (p, s) :: rest =>
      if p = pid then (p, s.update_timestamp t) :: rest
      else (p, s) :: touchPid pid t rest

/-- `EnvHistDaemon::get_or_create_session`, as one connection handler runs
it start to finish with no interleaving: return the existing session for
`pid`, else create one (shell from the environment, fresh uuid, now
timestamps) and insert it.  The interleaved two-phase version this method
actually compiles to is `racyStep`/`runSchedule` below. -/
def get_or_create_session (pid : Nat) (shell : String) (st : DaemonState) :
    Session × DaemonState :=
  match alookup pid st.sessions with
  | some s => (s, st)
  | none =>
      let (t, st1) := st.now
      let s := Session.new st1.nextUuid pid shell t
      (s, { st1 with
              sessions := insertPid pid s st1.sessions,
              nextUuid := st1.nextUuid + 1 })

/-- The `for entry in entries.iter().rev()` loop of
`EnvHistDaemon::get_previous_value`, applied to the reversed entry list:
the first entry whose key matches decides the result
(`entry.value.clone().or(entry.prev.clone())`). -/
def findPrevInEntries (key : String) : List TimelineEntry → Option String
  | [] => none
  | e :: rest =>
      if e.key = key then e.value.or e.prev else findPrevInEntries key rest

/-- `EnvHistDaemon::get_previous_value`: when `metadata.json` loads, answer
from its `current_env` (even when the key is absent there); only when the
metadata fails to load consult the timeline, scanning from the most recent
entry; a failing timeline read also yields `none`. -/
def get_previous_value (fs : FS) (sess : Session) (key : String) : Option String :=
  match load_metadata fs sess with
  | some metadata => alookup key metadata.current_env
  | none =>
      match read_timeline fs sess with
      | .ok entries => findPrevInEntries key entries.reverse
      | .error _ => none

/-- `EnvHistDaemon::handle_event`.  The storage appends and metadata writes
cannot fail in the filesystem model, so the `Error` responses guarding them
are unreachable and the success path is taken (see the module comment). -/
def handle_event (compile : RegexEngine) (cfg : FiltersConfig) (shell : String)
    (ev : EnvEvent) (st : DaemonState) : EnvResponse × DaemonState :=
  match ev with
  | .set pid key value =>
      if !(should_track compile cfg key) then (.ok, st)
      else
        let (sess, st1) := get_or_create_session pid shell st
        let prev := get_previous_value st1.fs sess key
        let (t, st2) := st1.now
        let entry : TimelineEntry := ⟨t, .set, key, some value, prev⟩
        let st3 := { st2 with fs := append_timeline st2.fs sess entry }
        let (t2, st4) := st3.now
        (.ok, { st4 with sessions := touchPid pid t2 st4.sessions })
  | .unset pid key =>
      if !(should_track compile cfg key) then (.ok, st)
      else
        let (sess, st1) := get_or_create_session pid shell st
        let prev := get_previous_value st1.fs sess key
        let (t, st2) := st1.now
        let entry : TimelineEntry := ⟨t, .unset, key, none, prev⟩
        (.ok, { st2 with fs := append_timeline st2.fs sess entry })
  | .capture pid env =>
      let (sess, st1) := get_or_create_session pid shell st
      (.ok, { st1 with fs := save_metadata st1.fs sess env })
  | .getSession pid =>
      let (sess, st1) := get_or_create_session pid shell st
      (.session sess, st1)

/-- One physical request line as `handle_client` classifies it: empty after
trimming, non-blank but failing `serde_json::from_str` (with the parser's
message), or a parsed event. -/
inductive ReqLine where
  | blank
  | malformed (msg : String)
  | event (e : EnvEvent)

/-- The read loop of `EnvHistDaemon::handle_client` over the lines of one
connection: blank lines are skipped with no response, unparsable lines get
an `Error` response and the loop continues, event lines get their handler's
response; responses are written in loop order. -/
def handle_client (compile : RegexEngine) (cfg : FiltersConfig) (shell : String) :
    List ReqLine → DaemonState → List EnvResponse × DaemonState
  | [], st => ([], st)
  | .blank :: rest, st => handle_client compile cfg shell rest st
  | .malformed msg :: rest, st =>
      let (rs, st1) := handle_client compile cfg shell rest st
      (EnvResponse.error ("Failed to parse event: " ++ msg) :: rs, st1)
  | .event e :: rest, st =>
      let (r, st1) := handle_event compile cfg shell e st
      let (rs, st2) := handle_client compile cfg shell rest st1
      (r :: rs, st2)

/-- Where a concurrent caller of `get_or_create_session` stands: before the
read-locked lookup, holding a freshly built session about to take the write
lock and insert it, or returned with its result. -/
inductive TaskState where
  | start
  | toInsert (s : Session)
  | done (s : Session)
deriving DecidableEq, Repr

/-- One atomic step of `get_or_create_session` as the code locks it: the
read-locked lookup (returning the hit, or building the new session after
releasing the lock), then separately the write-locked insert.  The lookup
and the insert are NOT under one lock acquisition. -/
def racyStep (pid : Nat) (shell : String) (st : DaemonState) (ts : TaskState) :
    DaemonState × TaskState :=
  match ts with
  | .start =>
      match alookup pid st.sessions with
      | some s => (st, .done s)
      | none =>
          let (t, st1) := st.now
          let s := Session.new st1.nextUuid pid shell t
          ({ st1 with nextUuid := st1.nextUuid + 1 }, .toInsert s)
  | .toInsert s => ({ st with sessions := insertPid pid s st.sessions }, .done s)
  | .done s => (st, .done s)

/-- Run concurrent `get_or_create_session` callers for the same `pid` under
an explicit interleaving: the schedule names which task takes the next
atomic step. -/
def runSchedule (pid : Nat) (shell : String) :
    List Nat → DaemonState → List TaskState → DaemonState × List TaskState
  | [], st, tasks => (st, tasks)
  | i :: rest, st, tasks =>
      match tasks.get? i with
      | none => runSchedule pid shell rest st tasks
      | some ts =>
          let (st1, ts1) := racyStep pid shell st ts
          runSchedule pid shell rest st1 (tasks.set i ts1)

/-! ## Helper lemmas about the storage model -/

/-- `true` exactly on lines that fail to parse as a `TimelineEntry`. -/
def Line.isCorrupt : Line → Bool
  | .corrupt _ => true
  | _ => false

theorem lookup_updAssoc_self (i : Nat) (f : SessionDir → SessionDir)
    (l : List (Nat × SessionDir)) :
    alookup i (updAssoc i f l) = some (f ((alookup i l).getD SessionDir.empty)) := by
  induction l with
  | nil => simp [updAssoc, alookup]
  | cons hd tl ih =>
    obtain ⟨j, d⟩ := hd
    by_cases h : j = i
    · subst h
      simp [updAssoc, alookup]
    · simp [updAssoc, alookup, h, ih]

theorem getDir_updDir_self (fs : FS) (i : Nat) (f : SessionDir → SessionDir) :
    (fs.updDir i f).getDir i = some (f ((fs.getDir i).getD SessionDir.empty)) :=
  lookup_updAssoc_self i f fs.sessions

theorem parseLines_append_entry (l : List Line) (e : TimelineEntry) :
    parseLines (l ++ [Line.entry e]) =
      match parseLines l with
      | .ok es => .ok (es ++ [e])
      | .error m => .error m := by
  induction l with
  | nil => simp [parseLines]
  | cons hd tl ih =>
    cases hd with
    | blank => simpa [parseLines] using ih
    | corrupt s => simp [parseLines]
    | entry e2 =>
      simp only [List.cons_append, parseLines, List.append_eq]
      rw [ih]
      cases parseLines tl <;> simp

theorem parseLines_first_corrupt (pre post : List Line) (s : String)
    (hpre : ∀ l ∈ pre, l.isCorrupt = false) :
    parseLines (pre ++ Line.corrupt s :: post) =
      .error ("Failed to parse timeline entry: " ++ s) := by
  induction pre with
  | nil => rfl
  | cons l rest ih =>
    cases l with
    | blank =>
      simpa [parseLines] using ih (fun l hl => hpre l (List.mem_cons_of_mem _ hl))
    | corrupt m =>
      exact absurd (hpre _ (List.mem_cons_self _ _)) (by simp [Line.isCorrupt])
    | entry e =>
      have he := ih (fun l hl => hpre l (List.mem_cons_of_mem _ hl))
      simp only [List.cons_append, parseLines, List.append_eq, he]

theorem read_timeline_append (fs : FS) (sess : Session) (e : TimelineEntry) :
    read_timeline (append_timeline fs sess e) sess =
      match read_timeline fs sess with
      | .ok es => .ok (es ++ [e])
      | .error m => .error m := by
  simp only [read_timeline, append_timeline, getDir_updDir_self]
  cases h : fs.getDir sess.id with
  | none => simp [SessionDir.empty, parseLines]
  | some d =>
    cases ht : d.timeline with
    | none => simp [ht, parseLines]
    | some lines =>
      simp only [Option.getD_some, ht, Option.bind_some, Option.some_bind]
      rw [parseLines_append_entry]

theorem findSnapLoop_eq_findSome (name : String) (l : List (Nat × SessionDir)) :
    findSnapLoop name l =
      match l.findSome? (fun p => alookup name p.2.snapshots) with
      | some snap => .ok snap
      | none => .error ("Snapshot " ++ name ++ " not found") := by
  induction l with
  | nil => simp [findSnapLoop]
  | cons hd tl ih =>
    obtain ⟨j, d⟩ := hd
    simp only [findSnapLoop, List.findSome?_cons]
    cases alookup name d.snapshots <;> simp [ih]

theorem lookup_bind_none_of_forall (name : String) (l : List (Nat × SessionDir))
    (h : ∀ p ∈ l, alookup name p.2.snapshots = none) (i : Nat) :
    (alookup i l).bind (fun d => alookup name d.snapshots) = none := by
  induction l with
  | nil => simp [alookup]
  | cons hd tl ih =>
    obtain ⟨j, d⟩ := hd
    have hd0 := h (j, d) (List.mem_cons_self _ _)
    by_cases hij : j = i
    · simp [alookup, hij, hd0]
    · simp only [alookup, if_neg hij]
      exact ih (fun p hp => h p (List.mem_cons_of_mem _ hp))

theorem deleteScan_all_missing (fs : FS) (name : String) (l : List (Nat × SessionDir))
    (h : ∀ p ∈ l, alookup name p.2.snapshots = none) :
    deleteScan fs name l = .error ("Snapshot " ++ name ++ " not found") := by
  induction l with
  | nil => rfl
  | cons hd tl ih =>
    obtain ⟨j, d⟩ := hd
    have hd0 := h (j, d) (List.mem_cons_self _ _)
    simp only [deleteScan, hd0]
    exact ih (fun p hp => h p (List.mem_cons_of_mem _ hp))

/-! ## Claims about the snapshot and timeline stores -/

/-- C6: entries appended by `append_timeline` to one session's log are
returned by `read_timeline` exactly in append order, and a session with no
backing timeline file reads as the empty sequence, not an error. -/
theorem C6_append_read_order (sess : Session) :
    (∀ fs : FS, (fs.getDir sess.id).bind (·.timeline) = none →
      read_timeline fs sess = .ok []) ∧
    (∀ (fs : FS) (prev entries : List TimelineEntry),
      read_timeline fs sess = .ok prev →
      read_timeline (entries.foldl (fun f e => append_timeline f sess e) fs) sess =
        .ok (prev ++ entries)) := by
  constructor
  · intro fs h
    simp [read_timeline, h]
  · intro fs prev entries
    induction entries generalizing fs prev with
    | nil => intro h; simpa using h
    | cons e rest ih =>
      intro h
      have h2 : read_timeline (append_timeline fs sess e) sess = .ok (prev ++ [e]) := by
        rw [read_timeline_append, h]
      simpa [List.append_assoc] using ih (append_timeline fs sess e) (prev ++ [e]) h2

theorem C6_append_read_order_witness :
    read_timeline
        (List.foldl (fun f e => append_timeline f ⟨3, 1, "zsh", 0, 0⟩ e) (⟨[], []⟩ : FS)
          [⟨0, Action.set, "A", some "1", none⟩, ⟨1, Action.unset, "A", none, some "1"⟩])
        ⟨3, 1, "zsh", 0, 0⟩ =
      .ok ([] ++ [⟨0, Action.set, "A", some "1", none⟩, ⟨1, Action.unset, "A", none, some "1"⟩]) :=
  (C6_append_read_order ⟨3, 1, "zsh", 0, 0⟩).2 ⟨[], []⟩ []
    [⟨0, Action.set, "A", some "1", none⟩, ⟨1, Action.unset, "A", none, some "1"⟩] rfl

/-- C10: `read_timeline` skips blank lines, but the first non-blank line
that fails to parse makes the whole read fail with that line's parse error,
returning no entries at all. -/
theorem C10_read_timeline_corrupt (fs : FS) (sess : Session) :
    (∀ lines : List Line, parseLines (Line.blank :: lines) = parseLines lines) ∧
    (∀ (pre post : List Line) (s : String),
      (fs.getDir sess.id).bind (·.timeline) = some (pre ++ Line.corrupt s :: post) →
      (∀ l ∈ pre, l.isCorrupt = false) →
      read_timeline fs sess = .error ("Failed to parse timeline entry: " ++ s)) := by
  constructor
  · intro lines; rfl
  · intro pre post s hfile hpre
    simp only [read_timeline, hfile]
    exact parseLines_first_corrupt pre post s hpre

theorem C10_read_timeline_corrupt_witness :
    read_timeline
        (⟨[(9, ⟨some [Line.blank, Line.entry ⟨0, Action.set, "A", some "1", none⟩,
            Line.corrupt "oops", Line.entry ⟨1, Action.set, "B", some "2", none⟩], none, []⟩)],
          []⟩ : FS)
        ⟨9, 4, "bash", 0, 0⟩ =
      .error ("Failed to parse timeline entry: " ++ "oops") :=
  (C10_read_timeline_corrupt _ _).2
    [Line.blank, Line.entry ⟨0, Action.set, "A", some "1", none⟩]
    [Line.entry ⟨1, Action.set, "B", some "2", none⟩] "oops" rfl (by decide)

/-- C7: `load_snapshot` checks the requested scope first; a session-scoped
miss falls back to the global scope and then fails (no scan); only a
global-scoped miss scans all session directories in order, returning the
first match, else not-found. -/
theorem C7_load_snapshot_policy (fs : FS) (name : String) :
    (∀ (sess : Session) (snap : Snapshot),
      (fs.getDir sess.id).bind (fun d => alookup name d.snapshots) = some snap →
      load_snapshot fs name (some sess) = .ok snap) ∧
    (∀ (sess : Session) (snap : Snapshot),
      (fs.getDir sess.id).bind (fun d => alookup name d.snapshots) = none →
      alookup name fs.globalSnapshots = some snap →
      load_snapshot fs name (some sess) = .ok snap) ∧
    (∀ sess : Session,
      (fs.getDir sess.id).bind (fun d => alookup name d.snapshots) = none →
      alookup name fs.globalSnapshots = none →
      load_snapshot fs name (some sess) = .error ("Snapshot " ++ name ++ " not found")) ∧
    (∀ snap : Snapshot,
      alookup name fs.globalSnapshots = some snap →
      load_snapshot fs name none = .ok snap) ∧
    (alookup name fs.globalSnapshots = none →
      load_snapshot fs name none = find_snapshot_in_sessions fs name) ∧
    (find_snapshot_in_sessions fs name =
      match fs.sessions.findSome? (fun p => alookup name p.2.snapshots) with
      | some snap => .ok snap
      | none => .error ("Snapshot " ++ name ++ " not found")) := by
  refine ⟨?_, ?_, ?_, ?_, ?_, ?_⟩
  · intro sess snap h
    simp [load_snapshot, h]
  · intro sess snap h hg
    simp [load_snapshot, h, hg]
  · intro sess h hg
    simp [load_snapshot, h, hg]
  · intro snap hg
    simp [load_snapshot, hg]
  · intro hg
    simp [load_snapshot, hg]
  · exact findSnapLoop_eq_findSome name fs.sessions

theorem C7_load_snapshot_policy_witness :
    load_snapshot
        (⟨[(1, ⟨none, none, [("x", ⟨0, none, [], [], some 1⟩)]⟩)], []⟩ : FS) "x"
        (some ⟨5, 2, "zsh", 0, 0⟩) =
      .error ("Snapshot " ++ "x" ++ " not found") :=
  (C7_load_snapshot_policy _ "x").2.2.1 ⟨5, 2, "zsh", 0, 0⟩ rfl rfl

/-- C8: when the named snapshot exists in no consulted location — not in
the given session scope, not globally, and not in any session directory —
`delete_snapshot` fails with a single not-found error instead of silently
succeeding (no location is modified: no filesystem is returned). -/
theorem C8_delete_missing_not_found (fs : FS) (name : String) (session : Option Session)
    (hglob : alookup name fs.globalSnapshots = none)
    (hscan : ∀ p ∈ fs.sessions, alookup name p.2.snapshots = none) :
    delete_snapshot fs name session = .error ("Snapshot " ++ name ++ " not found") := by
  have hg : deleteGlobalThenScan fs name =
      .error ("Snapshot " ++ name ++ " not found") := by
    simp [deleteGlobalThenScan, hglob, deleteScan_all_missing fs name fs.sessions hscan]
  cases session with
  | none => simpa [delete_snapshot] using hg
  | some sess =>
    have hnone : (fs.getDir sess.id).bind (fun d => alookup name d.snapshots) = none :=
      lookup_bind_none_of_forall name fs.sessions hscan sess.id
    simpa [delete_snapshot, hnone] using hg

theorem C8_delete_missing_not_found_witness :
    delete_snapshot
        (⟨[(1, ⟨none, none, [("a", ⟨0, none, [], [], some 1⟩)]⟩)],
          [("b", ⟨0, none, [], [], none⟩)]⟩ : FS) "missing"
        (some ⟨1, 2, "zsh", 0, 0⟩) =
      .error ("Snapshot " ++ "missing" ++ " not found") :=
  C8_delete_missing_not_found _ "missing" _ rfl (by decide)

/-! ## Tracking policy (C9, C5) -/

/-- C9: `should_track` evaluates its filters with fixed precedence: a
force_track pattern match yields `true` regardless of the ignore lists;
otherwise exact membership in ignore_system yields `false`; otherwise an
ignore_patterns match yields `false`; otherwise `true`.  A pattern that
fails to compile matches nothing (never tracks, never ignores, never
errors). -/
theorem C9_should_track_precedence (compile : RegexEngine) (cfg : FiltersConfig)
    (key : String) :
    (cfg.force_track.any (fun pattern => regexIsMatch compile pattern key) = true →
      should_track compile cfg key = true) ∧
    (cfg.force_track.any (fun pattern => regexIsMatch compile pattern key) = false →
      cfg.ignore_system.contains key = true →
      should_track compile cfg key = false) ∧
    (cfg.force_track.any (fun pattern => regexIsMatch compile pattern key) = false →
      cfg.ignore_system.contains key = false →
      cfg.ignore_patterns.any (fun pattern => regexIsMatch compile pattern key) = true →
      should_track compile cfg key = false) ∧
    (cfg.force_track.any (fun pattern => regexIsMatch compile pattern key) = false →
      cfg.ignore_system.contains key = false →
      cfg.ignore_patterns.any (fun pattern => regexIsMatch compile pattern key) = false →
      should_track compile cfg key = true) ∧
    (∀ pattern : String, compile pattern = none →
      regexIsMatch compile pattern key = false) := by
  refine ⟨?_, ?_, ?_, ?_, ?_⟩
  · intro h1; simp [should_track, h1]
  · intro h1 h2
    have h2m : key ∈ cfg.ignore_system := by simpa using h2
    simp [should_track, h1, h2m]
  · intro h1 h2 h3
    have h2m : key ∉ cfg.ignore_system := by simpa using h2
    simp [should_track, h1, h2m, h3]
  · intro h1 h2 h3
    have h2m : key ∉ cfg.ignore_system := by simpa using h2
    simp [should_track, h1, h2m, h3]
  · intro pattern h; simp [regexIsMatch, h]

theorem C9_should_track_precedence_witness :
    (FiltersConfig.mk [".*PASSWORD.*"] ["MY_PASSWORD"] ["PATH"]).force_track.any
        (fun pattern => regexIsMatch (fun p => some (fun k => p == k)) pattern "MY_PASSWORD") =
      true ∧
    should_track (fun p => some (fun k => p == k))
        ⟨[".*PASSWORD.*"], ["MY_PASSWORD"], ["PATH"]⟩ "MY_PASSWORD" = true :=
  ⟨by decide,
   (C9_should_track_precedence (fun p => some (fun k => p == k))
     ⟨[".*PASSWORD.*"], ["MY_PASSWORD"], ["PATH"]⟩ "MY_PASSWORD").1 (by decide)⟩

/-- C5: a `Set` or `Unset` event whose key the tracking policy rejects
returns `Ok` with no mutation whatsoever: the returned state is the input
state — no timeline entry, no timestamp refresh, no session creation, and
the storage untouched. -/
theorem C5_policy_rejection_no_mutation (compile : RegexEngine) (cfg : FiltersConfig)
    (shell : String) (pid : Nat) (key value : String) (st : DaemonState)
    (h : should_track compile cfg key = false) :
    handle_event compile cfg shell (.set pid key value) st = (.ok, st) ∧
    handle_event compile cfg shell (.unset pid key) st = (.ok, st) := by
  constructor <;> simp [handle_event, h]

theorem C5_policy_rejection_no_mutation_witness :
    should_track (fun p => some (fun k => p == k)) ⟨["AWS_TOKEN"], [], []⟩ "AWS_TOKEN" =
      false ∧
    handle_event (fun p => some (fun k => p == k)) ⟨["AWS_TOKEN"], [], []⟩ "zsh"
        (.set 1 "AWS_TOKEN" "x") DaemonState.init = (.ok, DaemonState.init) :=
  ⟨by decide,
   (C5_policy_rejection_no_mutation (fun p => some (fun k => p == k))
     ⟨["AWS_TOKEN"], [], []⟩ "zsh" 1 "AWS_TOKEN" "x" DaemonState.init (by decide)).1⟩

/-! ## Previous-value resolution (C2) -/

theorem findPrevInEntries_eq_find (key : String) (l : List TimelineEntry) :
    findPrevInEntries key l =
      (l.find? (fun e => e.key == key)).bind (fun e => e.value.or e.prev) := by
  induction l with
  | nil => rfl
  | cons e rest ih =>
    by_cases h : e.key = key
    · simp [findPrevInEntries, List.find?_cons, h]
    · simp [findPrevInEntries, List.find?_cons, h, ih]

/-- The session and filesystem exhibiting the C2 counterexample: the
metadata snapshot loads successfully but does not mention key `"K"`, while
the timeline's most recent entry for `"K"` carries the value `"v"`. -/
def sessC2 : Session := ⟨5, 1, "zsh", 0, 0⟩

def fsC2 : FS :=
  ⟨[(5, ⟨some [Line.entry ⟨0, Action.set, "K", some "v", none⟩],
        some ⟨sessC2, []⟩, []⟩)], []⟩

/-- C2 counterexample: the metadata snapshot loads but lacks `"K"`, the
most recent timeline entry for `"K"` yields `"v"`, yet `get_previous_value`
returns `none` — refuting "consults the snapshot, then the timeline, and
returns absent only when neither source yields a value": a loaded snapshot
short-circuits the timeline even when it has no value for the key. -/
theorem C2_metadata_shortcircuit_cex :
    load_metadata fsC2 sessC2 = some ⟨sessC2, []⟩ ∧
    read_timeline fsC2 sessC2 = .ok [⟨0, Action.set, "K", some "v", none⟩] ∧
    findPrevInEntries "K" ([⟨0, Action.set, "K", some "v", none⟩] : List TimelineEntry).reverse =
      some "v" ∧
    get_previous_value fsC2 sessC2 "K" = none := by
  refine ⟨rfl, rfl, by decide, by decide⟩

/-- C2 (amended): `get_previous_value` answers from the metadata snapshot
alone whenever it loads — returning its lookup result for the key even when
that is absent — and consults the timeline only when the metadata cannot be
loaded, answering from the most recent entry whose key matches (its value
if present, else its prev), `none` when the timeline misses too or fails to
read. -/
theorem C2_get_previous_value_resolution (fs : FS) (sess : Session) (key : String) :
    (∀ md : SessionMetadata, load_metadata fs sess = some md →
      get_previous_value fs sess key = alookup key md.current_env) ∧
    (load_metadata fs sess = none →
      get_previous_value fs sess key =
        match read_timeline fs sess with
        | .ok entries =>
            (entries.reverse.find? (fun e => e.key == key)).bind
              (fun e => e.value.or e.prev)
        | .error _ => none) := by
  constructor
  · intro md h
    simp [get_previous_value, h]
  · intro h
    simp only [get_previous_value, h]
    cases read_timeline fs sess with
    | ok entries => simp [findPrevInEntries_eq_find]
    | error m => rfl

theorem C2_get_previous_value_resolution_witness :
    get_previous_value fsC2 sessC2 "K" = alookup "K" ([] : Env) :=
  (C2_get_previous_value_resolution fsC2 sessC2 "K").1 ⟨sessC2, []⟩ rfl

/-! ## Session registry timestamps (C3) -/

theorem alookup_insertPid_self (pid : Nat) (s : Session) (l : List (Nat × Session)) :
    alookup pid (insertPid pid s l) = some s := by
  induction l with
  | nil => simp [insertPid, alookup]
  | cons hd tl ih =>
    obtain ⟨p, t⟩ := hd
    by_cases h : p = pid
    · simp [insertPid, h, alookup]
    · simp [insertPid, h, alookup, ih]

theorem alookup_insertPid_other (pid q : Nat) (s : Session) (l : List (Nat × Session))
    (hq : q ≠ pid) :
    alookup q (insertPid pid s l) = alookup q l := by
  induction l with
  | nil => simp [insertPid, alookup, Ne.symm hq]
  | cons hd tl ih =>
    obtain ⟨p, t⟩ := hd
    by_cases h : p = pid
    · subst h
      simp [insertPid, alookup, Ne.symm hq]
    · simp [insertPid, h, alookup, ih]

theorem alookup_touchPid_self (pid t : Nat) (l : List (Nat × Session)) :
    alookup pid (touchPid pid t l) =
      (alookup pid l).map (fun s => s.update_timestamp t) := by
  induction l with
  | nil => simp [touchPid, alookup]
  | cons hd tl ih =>
    obtain ⟨p, s⟩ := hd
    by_cases h : p = pid
    · simp [touchPid, h, alookup]
    · simp [touchPid, h, alookup, ih]

theorem alookup_touchPid_other (pid q t : Nat) (l : List (Nat × Session))
    (hq : q ≠ pid) :
    alookup q (touchPid pid t l) = alookup q l := by
  induction l with
  | nil => simp [touchPid]
  | cons hd tl ih =>
    obtain ⟨p, s⟩ := hd
    by_cases h : p = pid
    · subst h
      simp [touchPid, alookup, Ne.symm hq]
    · simp [touchPid, h, alookup, ih]

theorem get_or_create_session_hit (pid : Nat) (shell : String) (st : DaemonState)
    (s : Session) (hs : alookup pid st.sessions = some s) :
    get_or_create_session pid shell st = (s, st) := by
  simp [get_or_create_session, hs]

theorem get_or_create_session_preserves (pid : Nat) (shell : String) (st : DaemonState)
    (q : Nat) (s : Session) (hs : alookup q st.sessions = some s) :
    alookup q ((get_or_create_session pid shell st).2).sessions = some s := by
  cases h : alookup pid st.sessions with
  | some s2 => simp [get_or_create_session, h, hs]
  | none =>
    have hq : q ≠ pid := by
      intro e
      subst e
      rw [hs] at h
      exact Option.noConfusion h
    simp only [get_or_create_session, h, DaemonState.now]
    rw [alookup_insertPid_other _ _ _ _ hq]
    exact hs

theorem handle_event_set_sessions (compile : RegexEngine) (cfg : FiltersConfig)
    (shell : String) (pid2 : Nat) (key value : String) (st : DaemonState)
    (htr : should_track compile cfg key = true) :
    ((handle_event compile cfg shell (.set pid2 key value) st).2).sessions =
      touchPid pid2 (((get_or_create_session pid2 shell st).2).clock + 1)
        (((get_or_create_session pid2 shell st).2).sessions) := by
  rcases hgc : get_or_create_session pid2 shell st with ⟨sess, st1⟩
  simp [handle_event, htr, hgc, DaemonState.now]

theorem handle_event_unset_sessions (compile : RegexEngine) (cfg : FiltersConfig)
    (shell : String) (pid2 : Nat) (key : String) (st : DaemonState)
    (htr : should_track compile cfg key = true) :
    ((handle_event compile cfg shell (.unset pid2 key) st).2).sessions =
      ((get_or_create_session pid2 shell st).2).sessions := by
  rcases hgc : get_or_create_session pid2 shell st with ⟨sess, st1⟩
  simp [handle_event, htr, hgc, DaemonState.now]

theorem handle_event_capture_sessions (compile : RegexEngine) (cfg : FiltersConfig)
    (shell : String) (pid2 : Nat) (env : Env) (st : DaemonState) :
    ((handle_event compile cfg shell (.capture pid2 env) st).2).sessions =
      ((get_or_create_session pid2 shell st).2).sessions := by
  rcases hgc : get_or_create_session pid2 shell st with ⟨sess, st1⟩
  simp [handle_event, hgc]

theorem handle_event_getSession_sessions (compile : RegexEngine) (cfg : FiltersConfig)
    (shell : String) (pid2 : Nat) (st : DaemonState) :
    ((handle_event compile cfg shell (.getSession pid2) st).2).sessions =
      ((get_or_create_session pid2 shell st).2).sessions := by
  rcases hgc : get_or_create_session pid2 shell st with ⟨sess, st1⟩
  simp [handle_event, hgc]

/-- The daemon state for the C3 counterexample and witness: pid 1 is
registered with `last_updated = 0`, and the clock has advanced to 5. -/
def stC3 : DaemonState := ⟨[(1, ⟨9, 1, "zsh", 0, 0⟩)], ⟨[], []⟩, 5, 10⟩

/-- C3 counterexample: an accepted `Unset` for registered pid 1 — a
"subsequent event" for that pid — is answered `Ok`, yet afterwards the
registry entry's `last_updated` is still `0`, although every clock value
the handler could draw is ≥ 5: `Unset` (like `Capture` and `GetSession`)
does not refresh the timestamp, so "handling any subsequent event (Set,
Unset, Capture, or GetSession) refreshes last_updated" fails on the code. -/
theorem C3_unset_no_refresh_cex :
    (handle_event (fun _ => none) ⟨[], [], []⟩ "zsh" (.unset 1 "K") stC3).1 = .ok ∧
    alookup 1
        ((handle_event (fun _ => none) ⟨[], [], []⟩ "zsh" (.unset 1 "K") stC3).2).sessions =
      some ⟨9, 1, "zsh", 0, 0⟩ ∧
    stC3.clock = 5 :=
  ⟨rfl, rfl, rfl⟩

/-- C3 (amended): for a pid with an existing registry entry, only an
accepted `Set` event refreshes the entry's `last_updated` (accepted
`Unset`, `Capture` and `GetSession` leave the entry exactly as it was);
and across every event, provided all registered timestamps are bounded by
the current clock, the entry's `last_updated` is monotonically
non-decreasing. -/
theorem C3_last_updated_monotone (compile : RegexEngine) (cfg : FiltersConfig)
    (shell : String) (st : DaemonState) (pid : Nat) (s : Session)
    (hwf : ∀ p t, alookup p st.sessions = some t → t.last_updated ≤ st.clock)
    (hs : alookup pid st.sessions = some s) :
    (∀ ev : EnvEvent, ∃ s' : Session,
      alookup pid ((handle_event compile cfg shell ev st).2).sessions = some s' ∧
      s.last_updated ≤ s'.last_updated) ∧
    (∀ key value : String, should_track compile cfg key = true →
      alookup pid ((handle_event compile cfg shell (.set pid key value) st).2).sessions =
        some (s.update_timestamp (st.clock + 1))) ∧
    (∀ key : String, should_track compile cfg key = true →
      alookup pid ((handle_event compile cfg shell (.unset pid key) st).2).sessions =
        some s) ∧
    (∀ env : Env,
      alookup pid ((handle_event compile cfg shell (.capture pid env) st).2).sessions =
        some s) ∧
    (alookup pid ((handle_event compile cfg shell (.getSession pid) st).2).sessions =
      some s) := by
  have hset : ∀ key value, should_track compile cfg key = true →
      alookup pid ((handle_event compile cfg shell (.set pid key value) st).2).sessions =
        some (s.update_timestamp (st.clock + 1)) := by
    intro key value htr
    rw [handle_event_set_sessions compile cfg shell pid key value st htr,
      get_or_create_session_hit pid shell st s hs, alookup_touchPid_self, hs]
    rfl
  have hunset : ∀ key, should_track compile cfg key = true →
      alookup pid ((handle_event compile cfg shell (.unset pid key) st).2).sessions =
        some s := by
    intro key htr
    rw [handle_event_unset_sessions compile cfg shell pid key st htr,
      get_or_create_session_hit pid shell st s hs]
    exact hs
  refine ⟨?_, hset, hunset, ?_, ?_⟩
  · intro ev
    cases ev with
    | set pid2 key value =>
      by_cases htr : should_track compile cfg key
      · by_cases hqq : pid = pid2
        · subst hqq
          refine ⟨s.update_timestamp (st.clock + 1), hset key value htr, ?_⟩
          simpa [Session.update_timestamp] using Nat.le_succ_of_le (hwf pid s hs)
        · refine ⟨s, ?_, le_refl _⟩
          rw [handle_event_set_sessions compile cfg shell pid2 key value st htr,
            alookup_touchPid_other _ _ _ _ hqq]
          exact get_or_create_session_preserves pid2 shell st pid s hs
      · have htr2 : should_track compile cfg key = false := by simpa using htr
        exact ⟨s, by simpa [handle_event, htr2] using hs, le_refl _⟩
    | unset pid2 key =>
      by_cases htr : should_track compile cfg key
      · refine ⟨s, ?_, le_refl _⟩
        rw [handle_event_unset_sessions compile cfg shell pid2 key st htr]
        exact get_or_create_session_preserves pid2 shell st pid s hs
      · have htr2 : should_track compile cfg key = false := by simpa using htr
        exact ⟨s, by simpa [handle_event, htr2] using hs, le_refl _⟩
    | capture pid2 env =>
      refine ⟨s, ?_, le_refl _⟩
      rw [handle_event_capture_sessions]
      exact get_or_create_session_preserves pid2 shell st pid s hs
    | getSession pid2 =>
      refine ⟨s, ?_, le_refl _⟩
      rw [handle_event_getSession_sessions]
      exact get_or_create_session_preserves pid2 shell st pid s hs
  · intro env
    rw [handle_event_capture_sessions,
      get_or_create_session_hit pid shell st s hs]
    exact hs
  · rw [handle_event_getSession_sessions,
      get_or_create_session_hit pid shell st s hs]
    exact hs

theorem C3_last_updated_monotone_witness :
    ∃ s' : Session,
      alookup 1
          ((handle_event (fun _ => none) ⟨[], [], []⟩ "zsh" (.unset 1 "K") stC3).2).sessions =
        some s' ∧
      (⟨9, 1, "zsh", 0, 0⟩ : Session).last_updated ≤ s'.last_updated :=
  (C3_last_updated_monotone (fun _ => none) ⟨[], [], []⟩ "zsh" stC3 1 ⟨9, 1, "zsh", 0, 0⟩
    (by
      intro p t h
      by_cases hp : (1 : Nat) = p
      · subst hp
        have ht : t = ⟨9, 1, "zsh", 0, 0⟩ := by
          simp [stC3, alookup] at h
          exact h.symm
        simp [ht, stC3]
      · simp [stC3, alookup, hp] at h)
    rfl).1 (.unset 1 "K")

/-! ## Connection loop (C4) -/

/-- `true` on the received lines that trigger a response: everything except
lines that are blank after trimming. -/
def ReqLine.answered : ReqLine → Bool
  | .blank => false
  | _ => true

theorem handle_client_malformed_cons (compile : RegexEngine) (cfg : FiltersConfig)
    (shell : String) (msg : String) (rest : List ReqLine) (st : DaemonState) :
    handle_client compile cfg shell (.malformed msg :: rest) st =
      (EnvResponse.error ("Failed to parse event: " ++ msg) ::
         (handle_client compile cfg shell rest st).1,
       (handle_client compile cfg shell rest st).2) := by
  rcases h : handle_client compile cfg shell rest st with ⟨rs, st1⟩
  simp [handle_client, h]

theorem handle_client_event_cons (compile : RegexEngine) (cfg : FiltersConfig)
    (shell : String) (e : EnvEvent) (rest : List ReqLine) (st : DaemonState) :
    handle_client compile cfg shell (.event e :: rest) st =
      ((handle_event compile cfg shell e st).1 ::
         (handle_client compile cfg shell rest
           (handle_event compile cfg shell e st).2).1,
       (handle_client compile cfg shell rest
         (handle_event compile cfg shell e st).2).2) := by
  rcases he : handle_event compile cfg shell e st with ⟨r, st1⟩
  rcases hc : handle_client compile cfg shell rest st1 with ⟨rs, st2⟩
  simp [handle_client, he, hc]

theorem handle_client_append (compile : RegexEngine) (cfg : FiltersConfig)
    (shell : String) (l1 l2 : List ReqLine) (st : DaemonState) :
    handle_client compile cfg shell (l1 ++ l2) st =
      ((handle_client compile cfg shell l1 st).1 ++
         (handle_client compile cfg shell l2
           (handle_client compile cfg shell l1 st).2).1,
       (handle_client compile cfg shell l2
         (handle_client compile cfg shell l1 st).2).2) := by
  induction l1 generalizing st with
  | nil => simp [handle_client]
  | cons l rest ih =>
    cases l with
    | blank => simpa [handle_client] using ih st
    | malformed msg =>
      simp [handle_client_malformed_cons, ih]
    | event e =>
      simp [handle_client_event_cons, ih]

/-- C4 counterexample: a connection that receives one blank line gets zero
response lines, not one: the loop skips blank lines without any response,
although a blank line is received on the connection and is not a parsable
event — refuting the strict one-response-per-request-line correspondence
for every received line. -/
theorem C4_blank_line_cex :
    ((handle_client (fun _ => none) ⟨[], [], []⟩ "zsh" [ReqLine.blank]
        DaemonState.init).1).length = 0 ∧
    ([ReqLine.blank] : List ReqLine).length = 1 :=
  ⟨rfl, rfl⟩

/-- C4 (amended): the handler emits exactly one response per NON-BLANK
received line, in order: blank lines are skipped with no response; a
malformed line yields exactly one `Error` response in place, leaves the
daemon state untouched, and never terminates the loop — every following
line is processed as if the malformed one were answered and forgotten; an
event line yields exactly its handler's response in place. -/
theorem C4_one_response_per_request (compile : RegexEngine) (cfg : FiltersConfig)
    (shell : String) :
    (∀ (lines : List ReqLine) (st : DaemonState),
      ((handle_client compile cfg shell lines st).1).length =
        lines.countP ReqLine.answered) ∧
    (∀ (rest : List ReqLine) (st : DaemonState),
      handle_client compile cfg shell (ReqLine.blank :: rest) st =
        handle_client compile cfg shell rest st) ∧
    (∀ (pre : List ReqLine) (msg : String) (post : List ReqLine) (st : DaemonState),
      handle_client compile cfg shell (pre ++ ReqLine.malformed msg :: post) st =
        ((handle_client compile cfg shell pre st).1 ++
           EnvResponse.error ("Failed to parse event: " ++ msg) ::
             (handle_client compile cfg shell post
               (handle_client compile cfg shell pre st).2).1,
         (handle_client compile cfg shell post
           (handle_client compile cfg shell pre st).2).2)) ∧
    (∀ (pre : List ReqLine) (e : EnvEvent) (post : List ReqLine) (st : DaemonState),
      handle_client compile cfg shell (pre ++ ReqLine.event e :: post) st =
        ((handle_client compile cfg shell pre st).1 ++
           (handle_event compile cfg shell e
             (handle_client compile cfg shell pre st).2).1 ::
             (handle_client compile cfg shell post
               (handle_event compile cfg shell e
                 (handle_client compile cfg shell pre st).2).2).1,
         (handle_client compile cfg shell post
           (handle_event compile cfg shell e
             (handle_client compile cfg shell pre st).2).2).2)) := by
  refine ⟨?_, ?_, ?_, ?_⟩
  · intro lines
    induction lines with
    | nil => intro st; simp [handle_client]
    | cons l rest ih =>
      intro st
      cases l with
      | blank => simp [handle_client, ReqLine.answered, ih st]
      | malformed msg =>
        simp [handle_client_malformed_cons, ReqLine.answered, ih st]
      | event e =>
        simp [handle_client_event_cons, ReqLine.answered,
          ih (handle_event compile cfg shell e st).2]
  · intro rest st
    rfl
  · intro pre msg post st
    rw [handle_client_append]
    simp [handle_client_malformed_cons]
  · intro pre e post st
    rw [handle_client_append]
    simp [handle_client_event_cons]

/-! ## The lookup-or-create race (C1) -/

/-- C1: `get_or_create_session` is NOT atomic for concurrent callers on the
same unseen pid.  Two callers for pid 7, interleaved so that both pass the
read-locked lookup before either performs its write-locked insert (schedule
[0, 1, 0, 1] over the two-phase steps the code's lock usage induces), both
complete — but they observe DIFFERENT Session ids (0 and 1): the second
insert overwrote the first caller's session, whose id is gone from the
registry. The registry's cardinality still increases by exactly one.  This
refutes "all N calls return a Session with the same id" on the code; the
spec (§4.1/§5) explicitly demands a single writer-mode check-and-insert,
so the code's read-then-separate-write locking is the slip. -/
theorem C1_get_or_create_race :
    (runSchedule 7 "sh" [0, 1, 0, 1] DaemonState.init
        [TaskState.start, TaskState.start]).2 =
      [TaskState.done ⟨0, 7, "sh", 0, 0⟩, TaskState.done ⟨1, 7, "sh", 1, 1⟩] ∧
    (⟨0, 7, "sh", 0, 0⟩ : Session).id ≠ (⟨1, 7, "sh", 1, 1⟩ : Session).id ∧
    (runSchedule 7 "sh" [0, 1, 0, 1] DaemonState.init
        [TaskState.start, TaskState.start]).1.sessions.length =
      DaemonState.init.sessions.length + 1 ∧
    alookup 7 ((runSchedule 7 "sh" [0, 1, 0, 1] DaemonState.init
        [TaskState.start, TaskState.start]).1).sessions = some ⟨1, 7, "sh", 1, 1⟩ := by
  refine ⟨rfl, by decide, rfl, rfl⟩

end Envhist
